import Mathlib

/-!
Shallow embedding of the security core of the alx-polly polling application:
CSRF token validation, input sanitization, email validation, the fixed-window
rate limiter, the session-gate middleware, and the server actions for
authentication and poll/vote CRUD.  Machine strings are modelled as `List Char`
and byte buffers as `List Nat`; the external identity and data services are
modelled as explicit state (an in-memory database and boolean service
outcomes); a thrown JavaScript exception is modelled as `Except.error`.
-/

namespace Polly

/-- Strings are modelled as lists of characters. -/
abbrev Str := List Char

/-- Byte buffers (`Buffer.from(string)`) are modelled as lists of naturals. -/
abbrev Bytes := List Nat

/-- Embedding of Node's `crypto.timingSafeEqual(a, b)`: it throws (here `none`)
when the buffers have different lengths, and otherwise XOR-accumulates every
byte pair without short-circuiting, returning whether the accumulator is 0. -/
def timingSafeEqual (a b : Bytes) : Option Bool :=
  if a.length = b.length then
    some (((a.zip b).foldl (fun acc p => acc ||| (p.1 ^^^ p.2)) 0) == 0)
  else
    none

/-- Embedding of `validateCsrfToken` from `src/app/lib/utils/csrf.ts`.
`storedToken` is the `csrf_token` cookie (`none` when no cookie is stored);
the JavaScript falsiness test `!storedToken || !token` also rejects empty
strings; a length-mismatch exception from `timingSafeEqual` is caught and
turned into `false`. -/
def validateCsrfToken (storedToken : Option Bytes) (token : Bytes) : Bool :=
  match storedToken with
  | none => false
  | some stored =>
    if stored.isEmpty || token.isEmpty then false
    else
      match timingSafeEqual token stored with
      | some r => r
      | none => false

/-- Embedding of `validateToken` from the CSRF server actions file; its body is
a line-for-line copy of `validateCsrfToken`. -/
def validateToken (storedToken : Option Bytes) (token : Bytes) : Bool :=
  match storedToken with
  | none => false
  | some stored =>
    if stored.isEmpty || token.isEmpty then false
    else
      match timingSafeEqual token stored with
      | some r => r
      | none => false

/-- Global single-character replacement, the embedding of
`String.prototype.replace(/c/g, r)` for a one-character pattern `c`. -/
def replaceChar (c : Char) (r : Str) (s : Str) : Str :=
  s.flatMap (fun x => if x = c then r else [x])

/-- Embedding of `sanitizeInput` from `src/app/lib/utils/security.ts`: a null
or empty input yields `''`; otherwise the five HTML special characters are
replaced by their entities, `&` first. -/
def sanitizeInput (input : Option Str) : Str :=
  match input with
  | none => []
  | some s =>
    if s.isEmpty then []
    else
      replaceChar '\'' ("&#039;".toList)
        (replaceChar '"' ("&quot;".toList)
          (replaceChar '>' ("&gt;".toList)
            (replaceChar '<' ("&lt;".toList)
              (replaceChar '&' ("&amp;".toList) s))))

/-- Whether a character is admissible inside the email regex classes
`[^\s@]`. -/
def emailClassChar (c : Char) : Bool :=
  !c.isWhitespace && c ≠ '@'

/-- Embedding of the test of `/^[^\s@]+@[^\s@]+\.[^\s@]+$/`: the string splits
as `local@domain` with both sides nonempty, every character outside whitespace
and `@`, and the domain containing a dot that has at least one character on
each side. -/
def emailRegexTest (s : Str) : Bool :=
  let localPart := s.takeWhile (fun c => c ≠ '@')
  match s.dropWhile (fun c => c ≠ '@') with
  | '@' :: domain =>
    !localPart.isEmpty && localPart.all emailClassChar &&
    !domain.isEmpty && domain.all emailClassChar &&
    (List.range domain.length).any
      (fun i => domain.getD i ' ' = '.' && decide (1 ≤ i) && decide (i + 2 ≤ domain.length))
  | _ => false

/-- Embedding of `validateEmail` from `src/app/lib/utils/security.ts`. -/
def validateEmail (email : Option Str) : Str :=
  match email with
  | none => []
  | some e =>
    if e.isEmpty then []
    else if !emailRegexTest e then []
    else sanitizeInput (some e)

/-- One entry of the in-process `rateLimits` record:
`{ count: number, resetTime: number }`. -/
structure RateEntry where
  count : Nat
  resetTime : Nat
deriving DecidableEq, Repr

/-- Embedding of `checkRateLimit` from `src/app/lib/utils/security.ts`, made
explicit in the current time `now` and in the entry stored for the key
(`none` on the first call).  The entry is reset when there is no entry or
`resetTime < now`; the counter is always incremented before comparing; the
result is `count <= maxAttempts` together with the updated entry. -/
def checkRateLimit (now maxAttempts windowMs : Nat) (entry : Option RateEntry) :
    Bool × RateEntry :=
  let e : RateEntry :=
    match entry with
    | none => { count := 0, resetTime := now + windowMs }
    | some e =>
      if e.resetTime < now then { count := 0, resetTime := now + windowMs } else e
  let e' : RateEntry := { e with count := e.count + 1 }
  (decide (e'.count ≤ maxAttempts), e')

/-- Formalization of claim C2's description of the reset condition, written
from the claim's words for comparison with `checkRateLimit`: it resets the
entry whenever `now >=` the stored window end (the code resets only when the
window end is strictly below `now`). -/
def checkRateLimitClaimed (now maxAttempts windowMs : Nat) (entry : Option RateEntry) :
    Bool × RateEntry :=
  let e : RateEntry :=
    match entry with
    | none => { count := 0, resetTime := now + windowMs }
    | some e =>
      if e.resetTime ≤ now then { count := 0, resetTime := now + windowMs } else e
  let e' : RateEntry := { e with count := e.count + 1 }
  (decide (e'.count ≤ maxAttempts), e')

/-- Runs `checkRateLimit` for one key over a list of call times, threading the
stored entry, and collects the returned booleans. -/
def runRateLimit (maxAttempts windowMs : Nat) :
    List Nat → Option RateEntry → List Bool
  | [], _ => []
  | now :: rest, st =>
    let r := checkRateLimit now maxAttempts windowMs st
    r.1 :: runRateLimit maxAttempts windowMs rest (some r.2)

/-- The process-local `rateLimits` map, keyed by strings. -/
abbrev RateMap := List (Str × RateEntry)

/-- Looks up the stored entry for a key (`rateLimits[key]`). -/
def getRate (m : RateMap) (k : Str) : Option RateEntry :=
  (m.find? (fun p => p.1 == k)).map (fun p => p.2)

/-- Stores an entry for a key, overwriting an existing binding. -/
def setRate (m : RateMap) (k : Str) (e : RateEntry) : RateMap :=
  if (m.find? (fun p => p.1 == k)).isSome then
    m.map (fun p => if p.1 == k then (k, e) else p)
  else
    m ++ [(k, e)]

/-- `checkRateLimit` acting on the shared `rateLimits` map. -/
def checkRateLimitOn (key : Str) (maxAttempts windowMs now : Nat) (m : RateMap) :
    Bool × RateMap :=
  let r := checkRateLimit now maxAttempts windowMs (getRate m key)
  (r.1, setRate m key r.2)

/-- A row of the `polls` collection. -/
structure Poll where
  id : Nat
  user_id : Nat
  question : Str
  options : List Str
deriving DecidableEq, Repr

/-- A row of the `votes` collection. -/
structure Vote where
  poll_id : Nat
  user_id : Nat
  option_index : Int
deriving DecidableEq, Repr

/-- The external data service's state: the two collections the actions touch. -/
structure DB where
  polls : List Poll
  votes : List Vote
deriving DecidableEq, Repr

/-- Result of a `.single()` select: the query must produce exactly one row,
otherwise the service reports an error. -/
def selectSingle (rows : List Poll) : Option Poll :=
  match rows with
  | [p] => some p
  | _ => none

/-- Embedding of `deletePoll` from `src/app/lib/utils/security.ts` (poll
actions).  `user` is the authenticated caller's id (`none` when not logged
in).  The poll's owner is fetched first via `.eq("id", id).single()`; a
non-owner is rejected before any delete is issued; only then the rows with
the given id are deleted.  Returns the `{error}` field and the resulting
database. -/
def deletePoll (user : Option Nat) (db : DB) (id : Nat) : Option Str × DB :=
  match user with
  | none => (some ("You must be logged in to delete a poll.".toList), db)
  | some u =>
    match selectSingle (db.polls.filter (fun p => p.id == id)) with
    | none => (some ("PGRST116: single row expected".toList), db)
    | some poll =>
      if poll.user_id ≠ u then
        (some ("You can only delete your own polls".toList), db)
      else
        (none, { db with polls := db.polls.filter (fun p => !(p.id == id)) })

/-- Embedding of `submitVote` from `src/app/lib/utils/security.ts`: requires a
logged-in caller, rejects when a vote row for `(pollId, user)` already exists,
and otherwise inserts `{poll_id, user_id, option_index}` with no validation of
`optionIndex`. -/
def submitVote (user : Option Nat) (db : DB) (pollId : Nat) (optionIndex : Int) :
    Option Str × DB :=
  match user with
  | none => (some ("You must be logged in to vote.".toList), db)
  | some u =>
    let existingVote := db.votes.filter (fun v => v.poll_id == pollId && v.user_id == u)
    if existingVote.length > 0 then
      (some ("You have already voted on this poll".toList), db)
    else
      (none, { db with votes := db.votes ++ [{ poll_id := pollId, user_id := u, option_index := optionIndex }] })

/-- Embedding of `updatePoll` from `src/app/lib/utils/security.ts`: requires a
logged-in caller; applies the `update_poll_<uid>` 10/60s rate limit; sanitizes
the question (`formData.get` may yield null) and the non-empty options; rejects
an empty question or fewer than two options; and finally issues an update
filtered by `.eq("id", pollId).eq("user_id", user.id)`.  Returns `{error}`,
the updated database, and the updated rate-limit map. -/
def updatePoll (now : Nat) (user : Option Nat) (db : DB) (rl : RateMap)
    (pollId : Nat) (questionRaw : Option Str) (optionsRaw : List Str) :
    Option Str × DB × RateMap :=
  match user with
  | none => (some ("You must be logged in to update a poll.".toList), db, rl)
  | some u =>
    let rate := checkRateLimitOn ("update_poll_".toList ++ (toString u).toList) 10 60000 now rl
    if !rate.1 then
      (some ("Rate limit exceeded. Please try again later.".toList), db, rate.2)
    else
      let question := sanitizeInput questionRaw
      let options := (optionsRaw.filter (fun o => !o.isEmpty)).map (fun o => sanitizeInput (some o))
      if question.isEmpty || options.length < 2 then
        (some ("Please provide a question and at least two options.".toList), db, rate.2)
      else
        (none,
         { db with polls := db.polls.map (fun p =>
             if p.id == pollId && p.user_id == u then
               { p with question := question, options := options }
             else p) },
         rate.2)

/-- Outcome of an authentication action: the returned `{error}` field, the
rate-limit map after the call, whether the external identity service was
invoked (`signInWithPassword` / `signUp`), and whether a fresh CSRF token was
issued on success. -/
structure AuthOutcome where
  error : Option Str
  rateLimits : RateMap
  identityCalled : Bool
  csrfRotated : Bool
deriving DecidableEq, Repr

/-- Input of `login`: either a `FormData` object, whose `get` calls may yield
null fields and which may carry a `csrf_token` entry, or a typed
`LoginFormData` object. -/
inductive LoginInput where
  | form (email password : Option Str) (csrf : Option Bytes)
  | obj (email password : Str)
deriving DecidableEq, Repr

/-- Embedding of `login` from the auth actions file.  `storedCsrf` is the
`csrf_token` cookie, `identityOk` the outcome of `signInWithPassword`, `now`
the clock and `rl` the rate-limit map.  A thrown exception is `Except.error`:
`data.email.toLowerCase()` throws when the form has no `email` field.  The
CSRF token is validated only when the submission is `FormData` and has a
`csrf_token` entry. -/
def login (storedCsrf : Option Bytes) (identityOk : Bool) (now : Nat) (rl : RateMap)
    (input : LoginInput) : Except Str AuthOutcome :=
  let csrfSubmitted : Option Bytes :=
    match input with
    | .form _ _ c => c
    | .obj _ _ => none
  let csrfRejected : Bool :=
    match csrfSubmitted with
    | some token => !(validateToken storedCsrf token)
    | none => false
  if csrfRejected then
    .ok { error := some ("Invalid or expired form submission. Please try again.".toList),
          rateLimits := rl, identityCalled := false, csrfRotated := false }
  else
    match (match input with | .form e _ _ => e | .obj e _ => some e) with
    | none =>
      .error ("TypeError: Cannot read properties of null (reading 'toLowerCase')".toList)
    | some email =>
      let emailKey := "login_".toList ++ email.map Char.toLower
      let rate := checkRateLimitOn emailKey 5 60000 now rl
      if !rate.1 then
        .ok { error := some ("Too many login attempts. Please try again later.".toList),
              rateLimits := rate.2, identityCalled := false, csrfRotated := false }
      else
        let emailV := validateEmail (some email)
        if emailV.isEmpty then
          .ok { error := some ("Invalid email format".toList),
                rateLimits := rate.2, identityCalled := false, csrfRotated := false }
        else if !identityOk then
          .ok { error := some ("Invalid email or password".toList),
                rateLimits := rate.2, identityCalled := true, csrfRotated := false }
        else
          .ok { error := none, rateLimits := rate.2, identityCalled := true, csrfRotated := true }

/-- Input of `register`, analogous to `LoginInput`. -/
inductive RegisterInput where
  | form (name email password : Option Str) (csrf : Option Bytes)
  | obj (name email password : Str)
deriving DecidableEq, Repr

/-- Embedding of `register` from the auth actions file: CSRF validation only
when a `csrf_token` entry is present, then the global `register_global`
3/hour rate limit, then name/email validation, then `signUp`. -/
def register (storedCsrf : Option Bytes) (identityOk : Bool) (now : Nat) (rl : RateMap)
    (input : RegisterInput) : Except Str AuthOutcome :=
  let csrfSubmitted : Option Bytes :=
    match input with
    | .form _ _ _ c => c
    | .obj _ _ _ => none
  let csrfRejected : Bool :=
    match csrfSubmitted with
    | some token => !(validateToken storedCsrf token)
    | none => false
  if csrfRejected then
    .ok { error := some ("Invalid or expired form submission. Please try again.".toList),
          rateLimits := rl, identityCalled := false, csrfRotated := false }
  else
    let rate := checkRateLimitOn ("register_global".toList) 3 3600000 now rl
    if !rate.1 then
      .ok { error := some ("Registration is temporarily unavailable. Please try again later.".toList),
            rateLimits := rate.2, identityCalled := false, csrfRotated := false }
    else
      let nameRaw : Option Str := match input with | .form n _ _ _ => n | .obj n _ _ => some n
      let emailRaw : Option Str := match input with | .form _ e _ _ => e | .obj _ e _ => some e
      let name := sanitizeInput nameRaw
      let email := validateEmail emailRaw
      if email.isEmpty then
        .ok { error := some ("Invalid email format".toList),
              rateLimits := rate.2, identityCalled := false, csrfRotated := false }
      else if name.isEmpty || name.length < 2 then
        .ok { error := some ("Name is required and must be at least 2 characters".toList),
              rateLimits := rate.2, identityCalled := false, csrfRotated := false }
      else if !identityOk then
        .ok { error := some ("Registration failed. Please try again with a different email.".toList),
              rateLimits := rate.2, identityCalled := true, csrfRotated := false }
      else
        .ok { error := none, rateLimits := rate.2, identityCalled := true, csrfRotated := true }

/-- Response of the session-gate middleware: pass the request through or issue
an HTTP redirect to `pathname` carrying the original path in the `redirectTo`
query parameter. -/
inductive GateResponse where
  | next
  | redirect (pathname : Str) (redirectTo : Str)
deriving DecidableEq, Repr

/-- Boolean string-prefix test. -/
def strStartsWith (s p : Str) : Bool := p.isPrefixOf s

/-- Boolean string-suffix test. -/
def strEndsWith (s p : Str) : Bool := p.isSuffixOf s

/-- Embedding of `updateSession` from `src/lib/supabase/middleware.ts`:
with the environment configured, a request with no session whose path does not
start with `/login`, `/register` or `/auth` and is not the root path is
redirected to `/login?redirectTo=<path>`; otherwise it passes through.
Missing environment configuration passes every request through. -/
def updateSession (envOk : Bool) (hasSession : Bool) (pathname : Str) : GateResponse :=
  if !envOk then .next
  else if !hasSession
      && !(strStartsWith pathname ("/login".toList))
      && !(strStartsWith pathname ("/register".toList))
      && !(strStartsWith pathname ("/auth".toList))
      && !(pathname == "/".toList) then
    .redirect ("/login".toList) pathname
  else
    .next

/-- File extensions excluded by the matcher's `.*\.(svg|png|jpg|jpeg|gif|webp)$`
alternative. -/
def imageExtensions : List Str :=
  [".svg".toList, ".png".toList, ".jpg".toList, ".jpeg".toList, ".gif".toList, ".webp".toList]

/-- The exclusion set of the route matcher in `src/middleware.ts`, applied to
the path with its leading slash removed: static assets, the image optimizer,
the favicon, the login/register/auth pages, the public API, and image files. -/
def matcherExclusion (rest : Str) : Bool :=
  strStartsWith rest ("_next/static".toList) ||
  strStartsWith rest ("_next/image".toList) ||
  strStartsWith rest ("favicon.ico".toList) ||
  strStartsWith rest ("login".toList) ||
  strStartsWith rest ("register".toList) ||
  strStartsWith rest ("auth".toList) ||
  strStartsWith rest ("api/public".toList) ||
  imageExtensions.any (fun e => strEndsWith rest e)

/-- Embedding of the `config.matcher` pattern
`/((?!_next/static|_next/image|favicon.ico|login|register|auth|api/public|.*\.(?:svg|png|jpg|jpeg|gif|webp)$).*)`:
the middleware runs exactly on paths with a leading slash whose remainder is
not in the exclusion set. -/
def matcherMatches (pathname : Str) : Bool :=
  match pathname with
  | '/' :: rest => !(matcherExclusion rest)
  | _ => false

/-- The deployed session gate: `updateSession` runs only on paths selected by
the matcher; all other paths are served without the gate. -/
def middleware (envOk : Bool) (hasSession : Bool) (pathname : Str) : GateResponse :=
  if matcherMatches pathname then updateSession envOk hasSession pathname else .next

/-! ## Helper lemmas -/

theorem lor_eq_zero (a b : Nat) : a ||| b = 0 ↔ a = 0 ∧ b = 0 := by
  constructor
  · intro h
    constructor
    · exact Nat.eq_of_testBit_eq (fun i => by
        have := congrArg (fun n => n.testBit i) h
        simp [Nat.testBit_or] at this
        simp [this.1])
    · exact Nat.eq_of_testBit_eq (fun i => by
        have := congrArg (fun n => n.testBit i) h
        simp [Nat.testBit_or] at this
        simp [this.2])
  · rintro ⟨rfl, rfl⟩
    rfl

theorem foldl_or_xor_eq_zero :
    ∀ (a b : Bytes) (acc : Nat), a.length = b.length →
      (((a.zip b).foldl (fun acc p => acc ||| (p.1 ^^^ p.2)) acc = 0) ↔ (acc = 0 ∧ a = b))
  | [], [], acc, _ => by simp
  | [], _ :: _, _, h => by simp at h
  | _ :: _, [], _, h => by simp at h
  | x :: xs, y :: ys, acc, h => by
    simp only [List.zip_cons_cons, List.foldl_cons]
    rw [foldl_or_xor_eq_zero xs ys _ (by simpa using h)]
    rw [lor_eq_zero, Nat.xor_eq_zero]
    constructor
    · rintro ⟨⟨h1, h2⟩, h3⟩
      exact ⟨h1, by simp [h2, h3]⟩
    · rintro ⟨h1, h2⟩
      simp only [List.cons.injEq] at h2
      exact ⟨⟨h1, h2.1⟩, h2.2⟩

theorem timingSafeEqual_of_length_eq (a b : Bytes) (h : a.length = b.length) :
    timingSafeEqual a b = some (decide (a = b)) := by
  have hiff : ((a.zip b).foldl (fun acc p => acc ||| (p.1 ^^^ p.2)) 0 = 0) ↔ a = b := by
    simpa using foldl_or_xor_eq_zero a b 0 h
  by_cases he : a = b
  · simp only [timingSafeEqual, if_pos h]
    rw [hiff.mpr he]
    simp [he]
  · have hne : (a.zip b).foldl (fun acc p => acc ||| (p.1 ^^^ p.2)) 0 ≠ 0 :=
      fun hc => he (hiff.mp hc)
    simp [timingSafeEqual, if_pos h, he, hne]

theorem timingSafeEqual_of_length_ne (a b : Bytes) (h : a.length ≠ b.length) :
    timingSafeEqual a b = none := by
  simp [timingSafeEqual, h]

theorem validateCsrfToken_true_iff (st : Option Bytes) (t : Bytes) :
    validateCsrfToken st t = true ↔ t ≠ [] ∧ st = some t := by
  constructor
  · intro h
    match st with
    | none => simp [validateCsrfToken] at h
    | some stored =>
      simp only [validateCsrfToken] at h
      by_cases hse : stored.isEmpty
      · simp [hse] at h
      · by_cases hte : t.isEmpty
        · simp [hse, hte] at h
        · simp only [hse, hte, Bool.or_self, if_false] at h
          by_cases hl : t.length = stored.length
          · rw [timingSafeEqual_of_length_eq t stored hl] at h
            simp at h
            exact ⟨by simpa using hte, by rw [h]⟩
          · rw [timingSafeEqual_of_length_ne t stored hl] at h
            simp at h
  · rintro ⟨ht, rfl⟩
    have hte : t.isEmpty = false := by simpa using ht
    simp only [validateCsrfToken, hte, Bool.or_self, if_false]
    rw [timingSafeEqual_of_length_eq t t rfl]
    simp

/-! ## Claim theorems -/

/-- C1: CSRF validation (`validateCsrfToken`, and identically `validateToken`)
returns `false` when no `csrf_token` cookie is stored, when the submitted
token is empty, or when the two tokens differ in length or in any byte, and
returns `true` exactly when the submitted token is byte-for-byte equal to the
nonempty stored token; the comparison is the constant-time `timingSafeEqual`
primitive, which XOR-folds every byte pair without short-circuiting. -/
theorem csrf_validation_correct :
    ∀ (storedToken : Option Bytes) (token : Bytes),
      (validateCsrfToken storedToken token = true ↔ token ≠ [] ∧ storedToken = some token) ∧
      validateToken storedToken token = validateCsrfToken storedToken token := by
  intro st t
  constructor
  · exact validateCsrfToken_true_iff st t
  · cases st with
    | none => rfl
    | some stored => rfl

/-- C2 (counterexample): the claim's reset condition `now >= storedWindowEnd`
disagrees with the code at the boundary instant `now = storedWindowEnd`:
with a stored entry `{count: 5, resetTime: 100}` and `now = 100`,
`checkRateLimit` does not reset (count becomes 6, call rejected) while the
claimed behaviour resets (count becomes 1, call admitted). -/
theorem checkRateLimit_boundary_counterexample :
    checkRateLimit 100 5 60000 (some { count := 5, resetTime := 100 }) ≠
      checkRateLimitClaimed 100 5 60000 (some { count := 5, resetTime := 100 }) ∧
    checkRateLimit 100 5 60000 (some { count := 5, resetTime := 100 }) =
      (false, { count := 6, resetTime := 100 }) := by
  exact ⟨by decide, by decide⟩

/-- C2 (amended): `checkRateLimit` implements fixed-window counting that
resets the key's state to `{count: 0, windowEnd: now + windowMs}` on the first
call for the key or whenever `now` is strictly past the stored window end; it
always increments the counter before comparing and returns
`count <= maxAttempts`; for a fixed key with `maxAttempts = 5` and
`windowMs = 60000`, calls 1 through 5 return `true`, call 6 returns `false`,
and a call made strictly after the window end returns `true` again. -/
theorem checkRateLimit_fixed_window :
    (∀ now ma w, checkRateLimit now ma w none =
        (decide (1 ≤ ma), { count := 1, resetTime := now + w })) ∧
    (∀ now ma w e, e.resetTime < now →
        checkRateLimit now ma w (some e) =
          (decide (1 ≤ ma), { count := 1, resetTime := now + w })) ∧
    (∀ now ma w e, ¬e.resetTime < now →
        checkRateLimit now ma w (some e) =
          (decide (e.count + 1 ≤ ma), { count := e.count + 1, resetTime := e.resetTime })) ∧
    runRateLimit 5 60000 [0, 0, 0, 0, 0, 0, 60001] none =
      [true, true, true, true, true, false, true] := by
  refine ⟨fun now ma w => rfl, fun now ma w e h => ?_, fun now ma w e h => ?_, by decide⟩
  · simp [checkRateLimit, if_pos h]
  · simp [checkRateLimit, if_neg h]

/-- C2 (witness): a call made strictly after the stored window end resets the
counter and is admitted. -/
theorem checkRateLimit_fixed_window_witness :
    (100 : Nat) < 101 ∧
    checkRateLimit 101 5 60000 (some { count := 5, resetTime := 100 }) =
      (true, { count := 1, resetTime := 60101 }) :=
  ⟨by decide, checkRateLimit_fixed_window.2.1 101 5 60000 { count := 5, resetTime := 100 } (by decide)⟩

/-- C3: for an authenticated caller whose id differs from the stored owner of
the target poll, `deletePoll` returns the error
`"You can only delete your own polls"` and leaves the database unchanged. -/
theorem deletePoll_owner_check (u : Nat) (db : DB) (id : Nat) (poll : Poll)
    (hfind : db.polls.filter (fun p => p.id == id) = [poll])
    (hown : poll.user_id ≠ u) :
    deletePoll (some u) db id = (some ("You can only delete your own polls".toList), db) := by
  simp [deletePoll, hfind, selectSingle, hown]

/-- C3 (witness): user 1 attempting to delete poll 7 owned by user 2. -/
theorem deletePoll_owner_check_witness :
    (DB.mk [{ id := 7, user_id := 2, question := [], options := [] }] []).polls.filter
        (fun p => p.id == 7) = [{ id := 7, user_id := 2, question := [], options := [] }] ∧
    (2 : Nat) ≠ 1 ∧
    deletePoll (some 1) (DB.mk [{ id := 7, user_id := 2, question := [], options := [] }] []) 7 =
      (some ("You can only delete your own polls".toList),
       DB.mk [{ id := 7, user_id := 2, question := [], options := [] }] []) :=
  ⟨by decide, by decide,
   deletePoll_owner_check 1 (DB.mk [{ id := 7, user_id := 2, question := [], options := [] }] []) 7
     { id := 7, user_id := 2, question := [], options := [] } (by decide) (by decide)⟩

/-- At most one vote row exists per `(pollId, userId)` pair. -/
def atMostOneVote (db : DB) : Prop :=
  ∀ p u, (db.votes.filter (fun v => v.poll_id == p && v.user_id == u)).length ≤ 1

/-- C4: a caller who already has a vote row on a poll gets the error
`"You have already voted on this poll"` and no row is inserted, and every
`submitVote` call preserves the at-most-one-vote-per-pair invariant. -/
theorem submitVote_duplicate_rejected :
    (∀ (u : Nat) (db : DB) (pollId : Nat) (optionIndex : Int),
        (∃ v ∈ db.votes, v.poll_id = pollId ∧ v.user_id = u) →
        submitVote (some u) db pollId optionIndex =
          (some ("You have already voted on this poll".toList), db)) ∧
    (∀ (user : Option Nat) (db : DB) (pollId : Nat) (optionIndex : Int),
        atMostOneVote db → atMostOneVote (submitVote user db pollId optionIndex).2) := by
  constructor
  · intro u db pollId optionIndex hex
    obtain ⟨v, hv, hp, hu⟩ := hex
    have hne : db.votes.filter (fun v => v.poll_id == pollId && v.user_id == u) ≠ [] := by
      intro hc
      have := List.filter_eq_nil_iff.mp hc v hv
      simp [hp, hu] at this
    have hlen : 0 < (db.votes.filter (fun v => v.poll_id == pollId && v.user_id == u)).length :=
      List.length_pos.mpr hne
    simp [submitVote, hlen]
  · intro user db pollId optionIndex hinv
    match user with
    | none => exact hinv
    | some u =>
      simp only [submitVote]
      by_cases hlen : 0 < (db.votes.filter (fun v => v.poll_id == pollId && v.user_id == u)).length
      · simp [hlen]
        exact hinv
      · simp [hlen]
        intro p' u'
        rw [List.filter_append, List.length_append]
        by_cases hmatch : (pollId == p' && u == u') = true
        · simp only [Bool.and_eq_true, beq_iff_eq] at hmatch
          obtain ⟨hp', hu'⟩ := hmatch
          subst hp'
          subst hu'
          have h0 : (db.votes.filter (fun v => v.poll_id == pollId && v.user_id == u)).length = 0 := by
            omega
          simp [h0]
        · have : ({ poll_id := pollId, user_id := u, option_index := optionIndex } : Vote) ∈
              ([{ poll_id := pollId, user_id := u, option_index := optionIndex }] : List Vote) := by simp
          have hfilter : (List.filter (fun v => v.poll_id == p' && v.user_id == u')
              [({ poll_id := pollId, user_id := u, option_index := optionIndex } : Vote)]) = [] := by
            simp only [List.filter_eq_nil_iff]
            intro a ha
            simp only [List.mem_singleton] at ha
            subst ha
            simpa using hmatch
          rw [hfilter]
          simpa using hinv p' u'

/-- C4 (witness): user 1 voting a second time on poll 7. -/
theorem submitVote_duplicate_rejected_witness :
    (∃ v ∈ (DB.mk [] [{ poll_id := 7, user_id := 1, option_index := 0 }]).votes,
        v.poll_id = 7 ∧ v.user_id = 1) ∧
    submitVote (some 1) (DB.mk [] [{ poll_id := 7, user_id := 1, option_index := 0 }]) 7 2 =
      (some ("You have already voted on this poll".toList),
       DB.mk [] [{ poll_id := 7, user_id := 1, option_index := 0 }]) :=
  ⟨⟨{ poll_id := 7, user_id := 1, option_index := 0 }, by decide, by decide, by decide⟩,
   submitVote_duplicate_rejected.1 1
     (DB.mk [] [{ poll_id := 7, user_id := 1, option_index := 0 }]) 7 2
     ⟨{ poll_id := 7, user_id := 1, option_index := 0 }, by decide, by decide, by decide⟩⟩

/-- C10: for an authenticated caller with no existing vote row on the poll,
`submitVote` inserts a vote row carrying the given `optionIndex` unchanged —
including negative or out-of-range values — and returns a null error:
no validation of `optionIndex` is performed. -/
theorem submitVote_no_optionIndex_validation (u : Nat) (db : DB) (pollId : Nat)
    (optionIndex : Int)
    (hno : ∀ v ∈ db.votes, ¬(v.poll_id = pollId ∧ v.user_id = u)) :
    submitVote (some u) db pollId optionIndex =
      (none, { db with votes :=
        db.votes ++ [{ poll_id := pollId, user_id := u, option_index := optionIndex }] }) := by
  have hfilter : db.votes.filter (fun v => v.poll_id == pollId && v.user_id == u) = [] := by
    simp only [List.filter_eq_nil_iff]
    intro v hv
    have := hno v hv
    simpa using this
  simp [submitVote, hfilter]

/-- C10 (witness): a vote with the negative option index `-5` on a poll with
two options is inserted as-is with a null error. -/
theorem submitVote_no_optionIndex_validation_witness :
    (∀ v ∈ (DB.mk [{ id := 7, user_id := 2, question := ['q'], options := [['a'], ['b']] }] []).votes,
        ¬(v.poll_id = 7 ∧ v.user_id = 1)) ∧
    submitVote (some 1)
        (DB.mk [{ id := 7, user_id := 2, question := ['q'], options := [['a'], ['b']] }] []) 7 (-5) =
      (none, DB.mk [{ id := 7, user_id := 2, question := ['q'], options := [['a'], ['b']] }]
        [{ poll_id := 7, user_id := 1, option_index := -5 }]) :=
  ⟨by decide,
   submitVote_no_optionIndex_validation 1
     (DB.mk [{ id := 7, user_id := 2, question := ['q'], options := [['a'], ['b']] }] []) 7 (-5)
     (by decide)⟩

/-- C8: the persistence update of `updatePoll` is filtered by both the target
poll id and the calling user's id, so every poll whose `user_id` differs from
the caller's id is unchanged by the call — even when the caller supplies that
poll's id as the target, and in every branch (rate-limit or validation
failure, or the update itself). -/
theorem updatePoll_scoped_by_owner (now u : Nat) (db : DB) (rl : RateMap) (pollId : Nat)
    (questionRaw : Option Str) (optionsRaw : List Str) (i : Nat)
    (hother : ∀ p, db.polls[i]? = some p → p.user_id ≠ u) :
    (updatePoll now (some u) db rl pollId questionRaw optionsRaw).2.1.polls[i]? =
      db.polls[i]? := by
  simp only [updatePoll]
  split_ifs with h1 h2
  · rfl
  · rfl
  · rw [List.getElem?_map]
    cases h : db.polls[i]? with
    | none => rfl
    | some p =>
      have hne : p.user_id ≠ u := hother p h
      simp [hne]

/-- C8 (witness): user 1 targeting poll 7 owned by user 2 with a valid update
payload leaves poll 7 unchanged. -/
theorem updatePoll_scoped_by_owner_witness :
    (∀ p, (DB.mk [{ id := 7, user_id := 2, question := ['q'], options := [['a'], ['b']] }] []).polls[0]? = some p → p.user_id ≠ 1) ∧
    (updatePoll 0 (some 1)
        (DB.mk [{ id := 7, user_id := 2, question := ['q'], options := [['a'], ['b']] }] [])
        [] 7 (some ['n']) [['x'], ['y']]).2.1.polls[0]? =
      some { id := 7, user_id := 2, question := ['q'], options := [['a'], ['b']] } :=
  ⟨by decide,
   (updatePoll_scoped_by_owner 0 1
      (DB.mk [{ id := 7, user_id := 2, question := ['q'], options := [['a'], ['b']] }] [])
      [] 7 (some ['n']) [['x'], ['y']] 0 (by decide)).trans (by decide)⟩

/-- C5: with the environment configured, every request with no session whose
path is protected — a non-root path whose remainder after the leading slash is
outside the matcher's exclusion set (static assets, image optimizer, favicon,
login/register/auth pages, public API paths, image files) — is redirected to
the login path carrying the originally requested path as the `redirectTo`
query parameter; and the root path is always passed through, for every
environment and session state. -/
theorem session_gate_redirect :
    (∀ rest : Str, matcherExclusion rest = false → rest ≠ [] →
        middleware true false ('/' :: rest) =
          GateResponse.redirect ("/login".toList) ('/' :: rest)) ∧
    (∀ envOk hasSession, middleware envOk hasSession ("/".toList) = GateResponse.next) := by
  constructor
  · intro rest hex hne
    have hmatch : matcherMatches ('/' :: rest) = true := by
      simp only [matcherMatches, hex]
      rfl
    simp only [middleware, hmatch, if_true]
    simp only [matcherExclusion, Bool.or_eq_false_iff] at hex
    obtain ⟨⟨⟨⟨⟨⟨⟨hstat, himg⟩, hfav⟩, hlog⟩, hreg⟩, hauth⟩, hapi⟩, hext⟩ := hex
    have hroot : (('/' :: rest) == "/".toList) = false := by
      cases rest with
      | nil => exact absurd rfl hne
      | cons x xs => rfl
    simp only [updateSession, strStartsWith, Bool.not_false, if_true]
    simp only [hroot]
    simp
    refine ⟨?_, ?_, ?_⟩
    · simpa [strStartsWith] using hlog
    · simpa [strStartsWith] using hreg
    · intro hc
      rw [← List.isPrefixOf_iff_prefix] at hc
      simp [strStartsWith, hc] at hauth
  · intro envOk hasSession
    cases envOk <;> cases hasSession <;> rfl

/-- C5 (witness): an anonymous request to the protected path `/polls/123` is
redirected to `/login?redirectTo=/polls/123`. -/
theorem session_gate_redirect_witness :
    matcherExclusion ("polls/123".toList) = false ∧
    "polls/123".toList ≠ [] ∧
    middleware true false ("/polls/123".toList) =
      GateResponse.redirect ("/login".toList) ("/polls/123".toList) :=
  ⟨by decide, by decide,
   session_gate_redirect.1 ("polls/123".toList) (by decide) (by decide)⟩

/-- C6 (counterexample): a login submission that carries no CSRF token is not
rejected: with no stored CSRF cookie, a `FormData` submission of
`email=a@b.co, password=pw` and no `csrf_token` field passes the rate-limit
check (the counter for its key is created and incremented) and reaches the
identity service, returning a null error — contradicting the claim that a
submission without a CSRF token short-circuits before the rate-limit check
and the identity call. -/
theorem login_without_csrf_not_rejected :
    login none true 0 [] (.form (some ("a@b.co".toList)) (some ("pw".toList)) none) =
      Except.ok
        { error := none,
          rateLimits := [("login_a@b.co".toList, { count := 1, resetTime := 60000 })],
          identityCalled := true,
          csrfRotated := true } := by
  rfl

/-- C6 (amended): when a CSRF token accompanies a login or register
`FormData` submission, the action proceeds only if the token validates
against the stored cookie; an invalid token returns the CSRF error and
short-circuits before the rate-limit check (the rate-limit map is returned
unchanged) and before any call to the identity service; a submission not
accompanied by a CSRF token skips CSRF validation and proceeds to the
rate-limit check. -/
theorem auth_csrf_gate :
    (∀ (stored : Option Bytes) (idOk : Bool) (now : Nat) (rl : RateMap)
        (e p : Option Str) (t : Bytes),
        validateToken stored t = false →
        login stored idOk now rl (.form e p (some t)) =
          Except.ok
            { error := some ("Invalid or expired form submission. Please try again.".toList),
              rateLimits := rl, identityCalled := false, csrfRotated := false }) ∧
    (∀ (stored : Option Bytes) (idOk : Bool) (now : Nat) (rl : RateMap)
        (n e p : Option Str) (t : Bytes),
        validateToken stored t = false →
        register stored idOk now rl (.form n e p (some t)) =
          Except.ok
            { error := some ("Invalid or expired form submission. Please try again.".toList),
              rateLimits := rl, identityCalled := false, csrfRotated := false }) := by
  constructor
  · intro stored idOk now rl e p t hv
    simp [login, hv]
  · intro stored idOk now rl n e p t hv
    simp [register, hv]

/-- C6 (witness): with no stored cookie, a login submission carrying the
one-byte token `[1]` fails validation and is rejected without touching the
rate limiter or the identity service. -/
theorem auth_csrf_gate_witness :
    validateToken none [1] = false ∧
    login none true 0 [] (.form (some ("a@b.co".toList)) (some ("pw".toList)) (some [1])) =
      Except.ok
        { error := some ("Invalid or expired form submission. Please try again.".toList),
          rateLimits := [], identityCalled := false, csrfRotated := false } :=
  ⟨by decide,
   auth_csrf_gate.1 none true 0 [] (some ("a@b.co".toList)) (some ("pw".toList)) [1] (by decide)⟩

/-- C7 (code bug): `login` on a `FormData` submission with no `email` field
evaluates `data.email.toLowerCase()` on `null` and throws a `TypeError`
instead of returning a structured `{error}` result — the only documented flow
that violates the never-throws contract (elsewhere null fields are guarded by
`sanitizeInput` and `validateEmail`). -/
theorem login_throws_on_missing_email :
    login none true 0 [] (.form none (some ("pw".toList)) none) =
      Except.error ("TypeError: Cannot read properties of null (reading 'toLowerCase')".toList) := by
  rfl

theorem replaceChar_of_not_mem (c : Char) (r : Str) (s : Str) (h : c ∉ s) :
    replaceChar c r s = s := by
  induction s with
  | nil => rfl
  | cons x xs ih =>
    simp only [List.mem_cons, not_or] at h
    simp only [replaceChar, List.flatMap_cons]
    rw [if_neg (fun hc => h.1 hc.symm)]
    have := ih h.2
    simp only [replaceChar] at this
    rw [this]
    rfl

theorem length_replaceChar_ge (c : Char) (r : Str) (hr : r ≠ []) (s : Str) :
    s.length ≤ (replaceChar c r s).length := by
  induction s with
  | nil => simp [replaceChar]
  | cons x xs ih =>
    simp only [replaceChar, List.flatMap_cons, List.length_append, List.length_cons]
    have h1 : 1 ≤ (if x = c then r else [x]).length := by
      split
      · exact List.length_pos.mpr hr
      · simp
    simp only [replaceChar] at ih
    omega

theorem length_replaceChar_gt (c : Char) (r : Str) (hr : 2 ≤ r.length) (s : Str)
    (hc : c ∈ s) : s.length < (replaceChar c r s).length := by
  have hrne : r ≠ [] := by
    intro h
    rw [h] at hr
    simp at hr
  induction s with
  | nil => simp at hc
  | cons x xs ih =>
    simp only [replaceChar, List.flatMap_cons, List.length_append, List.length_cons]
    rcases List.mem_cons.mp hc with rfl | hmem
    · rw [if_pos rfl]
      have := length_replaceChar_ge c r hrne xs
      simp only [replaceChar] at this
      omega
    · have h1 : 1 ≤ (if x = c then r else [x]).length := by
        split
        · omega
        · simp
      have := ih hmem
      simp only [replaceChar] at this
      omega

theorem mem_replaceChar_of_ne (c : Char) (r : Str) (s : Str) (a : Char)
    (hne : a ≠ c) (ha : a ∈ s) : a ∈ replaceChar c r s := by
  induction s with
  | nil => simp at ha
  | cons x xs ih =>
    simp only [replaceChar, List.flatMap_cons, List.mem_append]
    rcases List.mem_cons.mp ha with rfl | hmem
    · left
      rw [if_neg hne]
      simp
    · right
      have := ih hmem
      simpa [replaceChar] using this

theorem mem_replaceChar_self (c : Char) (r : Str) (s : Str) (a : Char)
    (ha : a ∈ r) (hc : c ∈ s) : a ∈ replaceChar c r s := by
  induction s with
  | nil => simp at hc
  | cons x xs ih =>
    simp only [replaceChar, List.flatMap_cons, List.mem_append]
    rcases List.mem_cons.mp hc with rfl | hmem
    · left
      rw [if_pos rfl]
      exact ha
    · right
      have := ih hmem
      simpa [replaceChar] using this

theorem sanitizeInput_of_no_special (s : Str)
    (h : ∀ c ∈ s, c ∉ (['&', '<', '>', '"', '\''] : List Char)) :
    sanitizeInput (some s) = s := by
  have h1 : '&' ∉ s := fun hc => (h _ hc) (by simp)
  have h2 : '<' ∉ s := fun hc => (h _ hc) (by simp)
  have h3 : '>' ∉ s := fun hc => (h _ hc) (by simp)
  have h4 : '"' ∉ s := fun hc => (h _ hc) (by simp)
  have h5 : '\'' ∉ s := fun hc => (h _ hc) (by simp)
  by_cases hs : s = []
  · subst hs
    rfl
  · have hie : s.isEmpty = false := by simpa [List.isEmpty_iff] using hs
    simp only [sanitizeInput, hie, Bool.false_eq_true, if_false]
    rw [replaceChar_of_not_mem _ _ _ h1, replaceChar_of_not_mem _ _ _ h2,
        replaceChar_of_not_mem _ _ _ h3, replaceChar_of_not_mem _ _ _ h4,
        replaceChar_of_not_mem _ _ _ h5]

theorem amp_mem_sanitizeInput (s : Str) (h : '&' ∈ s) :
    '&' ∈ sanitizeInput (some s) := by
  have hne : s ≠ [] := by
    intro hc
    subst hc
    simp at h
  have hie : s.isEmpty = false := by simpa [List.isEmpty_iff] using hne
  simp only [sanitizeInput, hie, Bool.false_eq_true, if_false]
  apply mem_replaceChar_of_ne _ _ _ _ (by decide)
  apply mem_replaceChar_of_ne _ _ _ _ (by decide)
  apply mem_replaceChar_of_ne _ _ _ _ (by decide)
  apply mem_replaceChar_of_ne _ _ _ _ (by decide)
  exact mem_replaceChar_self _ _ _ _ (by decide) h

theorem length_sanitizeInput_gt (s : Str) (h : '&' ∈ s) :
    s.length < (sanitizeInput (some s)).length := by
  have hne : s ≠ [] := by
    intro hc
    subst hc
    simp at h
  have hie : s.isEmpty = false := by simpa [List.isEmpty_iff] using hne
  simp only [sanitizeInput, hie, Bool.false_eq_true, if_false]
  have l1 := length_replaceChar_gt '&' ("&amp;".toList) (by decide) s h
  have l2 := length_replaceChar_ge '<' ("&lt;".toList) (by decide)
    (replaceChar '&' ("&amp;".toList) s)
  have l3 := length_replaceChar_ge '>' ("&gt;".toList) (by decide)
    (replaceChar '<' ("&lt;".toList) (replaceChar '&' ("&amp;".toList) s))
  have l4 := length_replaceChar_ge '"' ("&quot;".toList) (by decide)
    (replaceChar '>' ("&gt;".toList)
      (replaceChar '<' ("&lt;".toList) (replaceChar '&' ("&amp;".toList) s)))
  have l5 := length_replaceChar_ge '\'' ("&#039;".toList) (by decide)
    (replaceChar '"' ("&quot;".toList)
      (replaceChar '>' ("&gt;".toList)
        (replaceChar '<' ("&lt;".toList) (replaceChar '&' ("&amp;".toList) s))))
  omega

/-- C9: `sanitizeInput "<b>"` is `"&lt;b&gt;"`; a string containing none of
`& < > " '` is returned unchanged, hence sanitization is idempotent on such
strings; and sanitizing twice a string that contains `&` double-escapes:
the result differs from sanitizing once. -/
theorem sanitizeInput_behavior :
    (sanitizeInput (some ("<b>".toList)) = "&lt;b&gt;".toList) ∧
    (∀ s : Str, (∀ c ∈ s, c ∉ (['&', '<', '>', '"', '\''] : List Char)) →
        sanitizeInput (some s) = s ∧
        sanitizeInput (some (sanitizeInput (some s))) = sanitizeInput (some s)) ∧
    (∀ s : Str, '&' ∈ s →
        sanitizeInput (some (sanitizeInput (some s))) ≠ sanitizeInput (some s)) := by
  refine ⟨by decide, ?_, ?_⟩
  · intro s h
    have h1 := sanitizeInput_of_no_special s h
    exact ⟨h1, by rw [h1, h1]⟩
  · intro s h hc
    have hamp : '&' ∈ sanitizeInput (some s) := amp_mem_sanitizeInput s h
    have hlt := length_sanitizeInput_gt (sanitizeInput (some s)) hamp
    rw [hc] at hlt
    omega

/-- C9 (witness): `"a&b"` contains `&` and double-sanitizing it differs from
sanitizing it once; `"ab"` has no special characters and sanitizes to
itself. -/
theorem sanitizeInput_behavior_witness :
    ('&' ∈ "a&b".toList ∧
      sanitizeInput (some (sanitizeInput (some ("a&b".toList)))) ≠
        sanitizeInput (some ("a&b".toList))) ∧
    ((∀ c ∈ "ab".toList, c ∉ (['&', '<', '>', '"', '\''] : List Char)) ∧
      sanitizeInput (some ("ab".toList)) = "ab".toList) :=
  ⟨⟨by decide, sanitizeInput_behavior.2.2 ("a&b".toList) (by decide)⟩,
   ⟨by decide, (sanitizeInput_behavior.2.1 ("ab".toList) (by decide)).1⟩⟩

end Polly
